import Mathlib

/-!
Verification development for the hierarchical video-indexing system
(`video_index`): a shallow embedding of the data model (`models.py`),
the frame-sampling indexing pipeline (`indexer_ollama.py`), the
single-shot indexer's validation step (`indexer.py`), the
context-injection callback (`callbacks.py`) and query dispatch
(`agent.py`), together with theorems settling the specification's
claims about them.

Python strings are modelled as lists of characters (`PStr`), compared
by code point exactly as Python compares `str` values.  Durations are
modelled as whole seconds (`Nat`).
-/

deriving instance DecidableEq for Except

/-- A Python string: a sequence of Unicode code points. -/
abbrev PStr := List Char

/-- Coerce a Lean string literal to the `PStr` representation. -/
def str (s : String) : PStr := s.data

/-- Models the regex class `\d` (restricted to the ASCII digits that the
program's `MM:SS` data actually uses): code points 48–57. -/
def isDigitChar (c : Char) : Bool := 48 ≤ c.toNat && c.toNat ≤ 57

/-- ASCII whitespace, as stripped by Python's `int` conversion. -/
def isSpaceChar (c : Char) : Bool :=
  c.toNat = 32 || c.toNat = 9 || c.toNat = 10 || c.toNat = 11 ||
  c.toNat = 12 || c.toNat = 13

/-- Python's `<` on strings: lexicographic comparison by code point. -/
def pyLt : PStr → PStr → Bool
  | [], [] => false
  | [], _ :: _ => true
  | _ :: _, [] => false
  | a :: as, b :: bs =>
    if a.toNat < b.toNat then true
    else if b.toNat < a.toNat then false
    else pyLt as bs

/-- Python's `<=` on strings (total order, so `a <= b` iff not `b < a`). -/
def pyLe (a b : PStr) : Bool := !pyLt b a

/-- One step of Python's `min` over strings: keep the current value unless
the new one is strictly smaller. -/
def pyMin (a b : PStr) : PStr := if pyLt b a then b else a

/-- One step of Python's `max` over strings: replace the current value when
the new one is strictly larger. -/
def pyMax (a b : PStr) : PStr := if pyLt a b then b else a

/-- Value of a string of decimal digits (helper for `pyInt`). -/
def digitsToNat (s : PStr) : Nat :=
  s.foldl (fun n c => n * 10 + (c.toNat - 48)) 0

/-- Python's `int(...)` on a nonnegative decimal string: surrounding
whitespace is ignored.  (Outside that domain Python raises; the program
only applies it to validated `MM:SS` components, see `callbacks.py`.) -/
def pyInt (s : PStr) : Nat :=
  digitsToNat (((s.dropWhile isSpaceChar).reverse.dropWhile isSpaceChar).reverse)

/-- Python's `s.split(":")`. -/
def splitOnColon (s : PStr) : List PStr :=
  go s []
where
  go : PStr → PStr → List PStr
    | [], acc => [acc.reverse]
    | c :: cs, acc => if c = ':' then acc.reverse :: go cs [] else go cs (c :: acc)

/-- `int(t.split(":")[0]) * 60 + int(t.split(":")[1])`, the conversion a
stored `MM:SS` timestamp undergoes in `callbacks.py`. -/
def toSecondsPy (s : PStr) : Nat :=
  let parts := splitOnColon s
  pyInt (parts.headD []) * 60 + pyInt (parts.getD 1 [])

/-- The decimal digit characters. -/
def digitChar : Nat → Char
  | 0 => '0' | 1 => '1' | 2 => '2' | 3 => '3' | 4 => '4'
  | 5 => '5' | 6 => '6' | 7 => '7' | 8 => '8' | _ => '9'

/-- Decimal digits of `n`, least significant first (fuel-based so that it
reduces definitionally). -/
def natDigitsRev (fuel n : Nat) : PStr :=
  match fuel with
  | 0 => []
  | f + 1 => if n < 10 then [digitChar n] else digitChar (n % 10) :: natDigitsRev f (n / 10)

/-- Decimal rendering of a natural number, as Python's `str`/`format`. -/
def natToDec (n : Nat) : PStr := (natDigitsRev (n + 1) n).reverse

/-- Python's `f"{n:02d}"`: decimal, left-padded with `0` to width two. -/
def natPad2 (n : Nat) : PStr := if n < 10 then '0' :: natToDec n else natToDec n

/-- `f"{minutes:02d}:{seconds:02d}"` computed from a duration in whole
seconds, as in `build_video_structure` for the final segment's end. -/
def fmtDur (dur : Nat) : PStr := natPad2 (dur / 60) ++ ':' :: natPad2 (dur % 60)

/-- Python's `s[:n]` (by code point). -/
def pyTake (n : Nat) (s : PStr) : PStr := s.take n

/-- Python's `sep.join(xs)`. -/
def joinSep (sep : PStr) : List PStr → PStr
  | [] => []
  | [x] => x
  | x :: xs => x ++ sep ++ joinSep sep xs

/-- ASCII letters (the cased characters relevant to this program's data). -/
def isAlphaChar (c : Char) : Bool :=
  (65 ≤ c.toNat && c.toNat ≤ 90) || (97 ≤ c.toNat && c.toNat ≤ 122)

/-- Python's `str.title()` restricted to ASCII casing: a letter that
follows a letter is lowercased, any other letter is uppercased, everything
else (including the uncased Japanese defaults) passes through. -/
def pyTitle (s : PStr) : PStr := go false s
where
  go : Bool → PStr → PStr
    | _, [] => []
    | prevAlpha, c :: cs =>
      if isAlphaChar c then
        (if prevAlpha then c.toLower else c.toUpper) :: go true cs
      else c :: go false cs

/-- Python's `t.replace(":", "")` (single-character pattern, empty
replacement: every colon is removed). -/
def stripColons (s : PStr) : PStr := s.filter (fun c => !(c = ':'))

/-- The check `re.match(r"^\d{2}:\d{2}$", v)` from `TimeSpan`'s field
validator, with Python's semantics: `$` also matches just before one
trailing newline at the end of the string. -/
def matchesMMSS : PStr → Bool
  | m1 :: m2 :: c :: s1 :: s2 :: rest =>
    isDigitChar m1 && isDigitChar m2 && (c == ':') && isDigitChar s1 &&
    isDigitChar s2 && (rest.isEmpty || rest == ['\n'])
  | _ => false

/-- Exact five-character `MM:SS` form (no trailing newline): the shape of
every timestamp the frame extractor emits below 100 minutes. -/
def isMMSS5 : PStr → Bool
  | [m1, m2, c, s1, s2] =>
    isDigitChar m1 && isDigitChar m2 && (c == ':') && isDigitChar s1 && isDigitChar s2
  | _ => false

/-- Exact `MM:SS` form whose seconds field is below 60 (tens-of-seconds
digit at most `'5'`): the timestamps for which lexicographic order is
chronological order. -/
def chronoMMSS : PStr → Bool
  | [m1, m2, c, s1, s2] =>
    isDigitChar m1 && isDigitChar m2 && (c == ':') && isDigitChar s1 &&
    isDigitChar s2 && (s1.toNat ≤ 53)
  | _ => false

-- ----------------------------------------------------------------------
-- Data model (`models.py`)
-- ----------------------------------------------------------------------

/-- `TimeSpan`: a validated pair of `MM:SS` timestamps. -/
structure TimeSpan where
  start_time : PStr
  end_time : PStr
deriving DecidableEq

/-- Pydantic construction of a `TimeSpan`: both fields must pass the
`MM:SS` format validator and the model validator requires
`start_time < end_time` (Python string comparison); otherwise a
`ValidationError` is raised, modelled as `Except.error`. -/
def TimeSpan.make (st en : PStr) : Except PStr TimeSpan :=
  if matchesMMSS st = false then
    .error (str "無効な時間形式: " ++ st ++ str "。MM:SS形式である必要があります。")
  else if matchesMMSS en = false then
    .error (str "無効な時間形式: " ++ en ++ str "。MM:SS形式である必要があります。")
  else if pyLt st en = false then
    .error (str "start_time (" ++ st ++ str ") はend_time (" ++ en ++
      str ") より前である必要があります")
  else .ok ⟨st, en⟩

/-- `SegmentNode`: the leaf node, carrying a stored `TimeSpan`. -/
structure SegmentNode where
  node_type : PStr := str "Segment"
  title : PStr
  description : PStr
  time_span : TimeSpan
deriving DecidableEq

/-- Derived `id` of a segment: `f"{node_type}_{start}_{end}"` with colons
removed from the timestamps. -/
def SegmentNode.id (s : SegmentNode) : PStr :=
  s.node_type ++ ['_'] ++ stripColons s.time_span.start_time ++ ['_'] ++
    stripColons s.time_span.end_time

/-- `ChapterNode`: the container node; its `time_span` is derived, not
stored. -/
structure ChapterNode where
  node_type : PStr := str "Chapter"
  title : PStr
  summary : PStr
  children : List SegmentNode := []
deriving DecidableEq

/-- The derived `time_span` computed property of a chapter: the sentinel
`00:00`–`00:01` when `children` is empty, otherwise the minimum child
start and maximum child end (Python `min`/`max` over strings). -/
def ChapterNode.time_span (c : ChapterNode) : TimeSpan :=
  match c.children with
  | [] => ⟨str "00:00", str "00:01"⟩
  | s0 :: rest =>
    ⟨(rest.map (fun s => s.time_span.start_time)).foldl pyMin s0.time_span.start_time,
     (rest.map (fun s => s.time_span.end_time)).foldl pyMax s0.time_span.end_time⟩

/-- Derived `id` of a chapter, from its derived span. -/
def ChapterNode.id (c : ChapterNode) : PStr :=
  c.node_type ++ ['_'] ++ stripColons c.time_span.start_time ++ ['_'] ++
    stripColons c.time_span.end_time

/-- A root child: `Union[ChapterNode, SegmentNode]`. -/
inductive RootChild where
  | chapter (c : ChapterNode)
  | segment (s : SegmentNode)
deriving DecidableEq

/-- `VideoAnalysisResult`: the root node. -/
structure VideoAnalysisResult where
  video_title : PStr
  overview : PStr
  children : List RootChild := []
deriving DecidableEq

/-- `time_span` of a root child (a chapter's is derived, a segment's is
stored). -/
def RootChild.time_span : RootChild → TimeSpan
  | .chapter c => c.time_span
  | .segment s => s.time_span

/-- The derived `time_span` computed property of the root, identical in
shape to the chapter's. -/
def VideoAnalysisResult.time_span (r : VideoAnalysisResult) : TimeSpan :=
  match r.children with
  | [] => ⟨str "00:00", str "00:01"⟩
  | c0 :: rest =>
    ⟨(rest.map (fun c => c.time_span.start_time)).foldl pyMin c0.time_span.start_time,
     (rest.map (fun c => c.time_span.end_time)).foldl pyMax c0.time_span.end_time⟩

/-- Derived `id` of the root: `f"Video_{start}_{end}"`. -/
def VideoAnalysisResult.id (r : VideoAnalysisResult) : PStr :=
  str "Video_" ++ stripColons r.time_span.start_time ++ ['_'] ++
    stripColons r.time_span.end_time

-- ----------------------------------------------------------------------
-- Context-injection callback (`callbacks.py`)
-- ----------------------------------------------------------------------

/-- Raw video bytes (the single shared artifact's payload). -/
abbrev VideoBytes := List Nat

/-- `AttachVideoToLlmRequestCallback`: the per-node hook, parameterized by
the node's stored `MM:SS` pair. -/
structure AttachVideoToLlmRequestCallback where
  start_time : PStr
  end_time : PStr
deriving DecidableEq

/-- `types.Blob`. -/
structure Blob where
  data : VideoBytes
  display_name : Option PStr := none
  mime_type : PStr
deriving DecidableEq

/-- `types.VideoMetadata`: textual offsets (`f"{n}s"`) and a sampling
rate. -/
structure VideoMetadata where
  start_offset : PStr
  end_offset : PStr
  fps : Nat
deriving DecidableEq

/-- `types.Part` of an outgoing request (only the fields the program
uses). -/
structure ReqPart where
  text : Option PStr := none
  inline_data : Option Blob := none
  video_metadata : Option VideoMetadata := none
deriving DecidableEq

/-- `types.Content` of an outgoing request (`UserContent` has role
`"user"`). -/
structure ReqContent where
  role : PStr
  parts : List ReqPart
deriving DecidableEq

/-- `LlmRequest`: the outgoing request's content list. -/
structure LlmRequest where
  contents : List ReqContent
deriving DecidableEq

/-- The hook's `__call__`: it loads the single shared artifact (whose
payload is the `artifactData` argument), computes second offsets from its
stored `MM:SS` pair, and appends one `UserContent` block holding the video
blob annotated with that window at 1 frame per second.  The request's
existing contents are carried over; the Python method mutates
`llm_request.contents` in place and returns `None`, modelled here by
returning the updated request. -/
def AttachVideoToLlmRequestCallback.call (cb : AttachVideoToLlmRequestCallback)
    (artifactData : VideoBytes) (req : LlmRequest) : LlmRequest :=
  let start_offset := pyInt ((splitOnColon cb.start_time).headD []) * 60 +
    pyInt ((splitOnColon cb.start_time).getD 1 [])
  let end_offset := pyInt ((splitOnColon cb.end_time).headD []) * 60 +
    pyInt ((splitOnColon cb.end_time).getD 1 [])
  let inline_data : Blob :=
    { data := artifactData, display_name := some (str "uploaded_video"),
      mime_type := str "video/mp4" }
  let video_metadata : VideoMetadata :=
    { start_offset := natToDec start_offset ++ ['s'],
      end_offset := natToDec end_offset ++ ['s'], fps := 1 }
  let video_content : ReqPart :=
    { inline_data := some inline_data, video_metadata := some video_metadata }
  { contents := req.contents ++ [{ role := str "user", parts := [video_content] }] }

-- ----------------------------------------------------------------------
-- Tree → agent compilation (`to_agent` in `models.py`)
-- ----------------------------------------------------------------------

/-- A compiled `google.adk` agent specification.  `AgentTool(agent=a)` is a
stateless wrapper around the wrapped agent, so a tool entry is represented
by the compiled child agent itself. -/
inductive Agent where
  | mk (model : PStr) (name : PStr) (description : PStr) (instruction : PStr)
      (before_model_callback : Option AttachVideoToLlmRequestCallback)
      (output_key : PStr) (tools : List Agent)

/-- The tool list of a compiled agent. -/
def Agent.tools : Agent → List Agent
  | .mk _ _ _ _ _ _ ts => ts

/-- The name of a compiled agent. -/
def Agent.name : Agent → PStr
  | .mk _ n _ _ _ _ _ => n

/-- The context-injection callback bound to a compiled agent. -/
def Agent.before_model_callback : Agent → Option AttachVideoToLlmRequestCallback
  | .mk _ _ _ _ cb _ _ => cb

/-- `SegmentNode.to_agent`: a leaf agent with no tools, bound to the
context-injection callback for its own span. -/
def SegmentNode.to_agent (s : SegmentNode) : Agent :=
  .mk (str "gemini-2.5-flash") s.id
    (str "「" ++ s.title ++ str "」の専門エージェント。時間範囲: " ++
      s.time_span.start_time ++ str " 〜 " ++ s.time_span.end_time ++
      str "。このセグメントの映像・音声・イベントに関する質問に回答できます。")
    (str "あなたは動画セグメント「" ++ s.title ++ str "」の専門エージェントです。\n\n## 担当範囲\n- 時間: " ++
      s.time_span.start_time ++ str " 〜 " ++ s.time_span.end_time ++
      str "\n\n## セグメント内容\n" ++ s.description ++
      str "\n\n## 行動指針\n1. 上記のセグメント内容に基づいて、ユーザーの質問に正確に回答してください\n2. このセグメントに含まれる情報のみを使用し、推測や外部知識は避けてください\n3. 質問がこのセグメントの範囲外の場合は、その旨を明確に伝えてください\n4. 映像の視覚的要素、音声、発言内容、イベントの時系列について詳細に説明できます")
    (some ⟨s.time_span.start_time, s.time_span.end_time⟩)
    (s.id ++ str "_response") []

/-- One line of a chapter's `children_info` listing: segments have no
`summary` attribute, so their `description` is used. -/
def SegmentNode.infoLine (s : SegmentNode) : PStr :=
  str "- [" ++ s.time_span.start_time ++ str "〜" ++ s.time_span.end_time ++
    str "] " ++ s.title ++ str ": " ++ s.description

/-- `ChapterNode.to_agent`: children are compiled first, then each is
passed as one `AgentTool` of the chapter's agent, in `children` order. -/
def ChapterNode.to_agent (c : ChapterNode) : Agent :=
  .mk (str "gemini-2.5-flash") c.id
    (str "「" ++ c.title ++ str "」の専門エージェント。時間範囲: " ++
      c.time_span.start_time ++ str " 〜 " ++ c.time_span.end_time ++
      str "。このチャプターの映像・音声・イベントに関する質問に回答できます。")
    (str "あなたは動画チャプター「" ++ c.title ++ str "」の専門エージェントです。\n\n## 担当範囲\n- 時間: " ++
      c.time_span.start_time ++ str " 〜 " ++ c.time_span.end_time ++
      str "\n\n## チャプター概要\n" ++ c.summary ++
      str "\n\n## 含まれる子要素\n" ++ joinSep ['\n'] (c.children.map SegmentNode.infoLine) ++
      str "\n\n## 行動指針\n1. 上記のチャプター概要と子要素情報に基づいて、ユーザーの質問に正確に回答してください\n2. このチャプターに含まれる情報のみを使用し、推測や外部知識は避けてください\n3. 質問がこのチャプターの範囲外の場合は、その旨を明確に伝えてください\n\n## ツール活用指針\nあなたは各セグメントの専門エージェントをツールとして持っています。\n- **詳細な情報が必要な場合は、必ず該当する子エージェントを呼び出してください**\n- 質問内容が特定の時間範囲に関連する場合、その時間を担当する子エージェントに委譲してください\n- 複数の子要素に関わる質問の場合、関連する全ての子エージェントを順次呼び出して情報を統合してください\n- 概要レベルで回答できる質問でも、正確性を高めるために子エージェントで裏付けを取ることを推奨します\n- 階層的に深掘りが必要な場合、子エージェントがさらにその子エージェントを呼び出すことで詳細情報を取得できます")
    none
    (c.id ++ str "_response") (c.children.map SegmentNode.to_agent)

/-- Compiling a root child dispatches on its kind. -/
def RootChild.to_agent : RootChild → Agent
  | .chapter c => c.to_agent
  | .segment s => s.to_agent

/-- One line of the root's `children_info` listing: a chapter contributes
its `summary` (it has the attribute), a segment its `description`. -/
def RootChild.infoLine : RootChild → PStr
  | .chapter c =>
    str "- [" ++ c.time_span.start_time ++ str "〜" ++ c.time_span.end_time ++
      str "] " ++ c.title ++ str ": " ++ c.summary
  | .segment s => s.infoLine

/-- `VideoAnalysisResult.to_agent`: the root agent, with one `AgentTool`
per child in `children` order. -/
def VideoAnalysisResult.to_agent (r : VideoAnalysisResult) : Agent :=
  .mk (str "gemini-2.5-flash") r.id
    (str "「" ++ r.video_title ++ str "」の専門エージェント。時間範囲: " ++
      r.time_span.start_time ++ str " 〜 " ++ r.time_span.end_time ++
      str "。この動画全体の映像・音声・イベントに関する質問に回答できます。")
    (str "あなたは動画「" ++ r.video_title ++ str "」の専門エージェントです。\n\n## 担当範囲\n- 時間: " ++
      r.time_span.start_time ++ str " 〜 " ++ r.time_span.end_time ++
      str "\n\n## 動画概要\n" ++ r.overview ++
      str "\n\n## 含まれる子要素\n" ++ joinSep ['\n'] (r.children.map RootChild.infoLine) ++
      str "\n\n## 行動指針\n1. 上記の動画概要と子要素情報に基づいて、ユーザーの質問に正確に回答してください\n2. この動画に含まれる情報のみを使用し、推測や外部知識は避けてください\n\n## ツール活用指針\nあなたは各チャプター/セグメントの専門エージェントをツールとして持っています。\n- **詳細な情報が必要な場合は、必ず該当する子エージェントを呼び出してください**\n- 質問内容が特定の時間範囲に関連する場合、その時間を担当する子エージェントに委譲してください\n- 複数の子要素に関わる質問の場合、関連する全ての子エージェントを順次呼び出して情報を統合してください\n- 概要レベルで回答できる質問でも、正確性を高めるために子エージェントで裏付けを取ることを推奨します\n- 階層的に深掘りが必要な場合、子エージェントがさらにその子エージェントを呼び出すことで詳細情報を取得できます\n- 動画全体に関する質問でも、まず関連しそうな子エージェントから情報を収集してから回答を構築してください")
    none
    (r.id ++ str "_response") (r.children.map RootChild.to_agent)

-- ----------------------------------------------------------------------
-- Frame-sampling pipeline (`indexer_ollama.py`)
-- ----------------------------------------------------------------------

/-- The parsed per-frame analysis record.  The pipeline reads it through
`dict.get` with defaults, so each key is optional. -/
structure FrameAnalysis where
  scene_description : Option PStr := none
  visual_elements : Option PStr := none
  audio_hint : Option PStr := none
  is_scene_change : Option Bool := none
  scene_type : Option PStr := none
deriving DecidableEq

/-- `analysis.get("scene_description", "")`. -/
def FrameAnalysis.descD (a : FrameAnalysis) : PStr := a.scene_description.getD []

/-- `analysis.get("scene_type", "シーン")`. -/
def FrameAnalysis.sceneTypeD (a : FrameAnalysis) : PStr := a.scene_type.getD (str "シーン")

/-- `analysis.get("is_scene_change", False)`. -/
def FrameAnalysis.sceneChangeD (a : FrameAnalysis) : Bool := a.is_scene_change.getD false

/-- A placeholder segment; `current_chapter_segments[0]` is only read when
that list is nonempty, so the placeholder is never the value used. -/
def dummySegment : SegmentNode :=
  { title := [], description := [], time_span := ⟨str "00:00", str "00:01"⟩ }

/-- Close the running chapter: `f"チャプター {len(chapters)+1}"`, with the
first member segment's description truncated to 100 characters plus an
ellipsis marker as summary. -/
def mkChapter (n : Nat) (csegs : List SegmentNode) : ChapterNode :=
  { title := str "チャプター " ++ natToDec n,
    summary := pyTake 100 (csegs.headD dummySegment).description ++ str "...",
    children := csegs }

/-- The segment-building loop of `build_video_structure`: walks the frame
analyses in order carrying the flat segment list, the running chapter's
segments and the closed chapters.  Each frame's segment ends at the next
frame's timestamp (the last at the formatted clip duration); zero-length
segments are skipped; a frame flagged as a scene change closes the running
chapter first when it is nonempty; the trailing chapter is flushed at the
end.  A failing `TimeSpan` construction aborts with its error. -/
def buildLoopAux (dur : Nat) :
    List (PStr × FrameAnalysis) → List SegmentNode → List SegmentNode →
    List ChapterNode → Except PStr (List SegmentNode × List ChapterNode)
  | [], segs, cur, chs =>
    .ok (segs, if cur.isEmpty then chs else chs ++ [mkChapter (chs.length + 1) cur])
  | (t, a) :: rest, segs, cur, chs =>
    let endT : PStr :=
      match rest with
      | (t2, _) :: _ => t2
      | [] => fmtDur dur
    if t = endT then buildLoopAux dur rest segs cur chs
    else
      match TimeSpan.make t endT with
      | .error e => .error e
      | .ok ts =>
        let seg : SegmentNode :=
          { title := pyTitle a.sceneTypeD ++ str " (" ++ t ++ str ")",
            description := a.descD, time_span := ts }
        if a.sceneChangeD && !cur.isEmpty then
          buildLoopAux dur rest (segs ++ [seg]) [seg]
            (chs ++ [mkChapter (chs.length + 1) cur])
        else
          buildLoopAux dur rest (segs ++ [seg]) (cur ++ [seg]) chs

/-- `build_video_structure`: raises on an empty analysis list, runs the
loop, then assembles the root with the overview (first three segment
descriptions joined, truncated to 200 characters plus an ellipsis) and the
collapse rule for `children` (the chapter list only when more than one
chapter was produced, otherwise the flat segment list). -/
def build_video_structure (frames_analysis : List (PStr × FrameAnalysis))
    (video_duration_seconds : Nat) : Except PStr VideoAnalysisResult :=
  if frames_analysis.isEmpty then .error (str "フレーム解析結果が空です")
  else
    match buildLoopAux video_duration_seconds frames_analysis [] [] [] with
    | .error e => .error e
    | .ok (segs, chs) =>
      .ok { video_title := str "動画分析結果",
            overview :=
              pyTake 200 (joinSep [' '] ((segs.take 3).map SegmentNode.description)) ++
                str "...",
            children :=
              if 1 < chs.length then chs.map RootChild.chapter
              else segs.map RootChild.segment }

-- ----------------------------------------------------------------------
-- Indexer contracts (`indexer.py`, `indexer_ollama.py`)
-- ----------------------------------------------------------------------

/-- The empty-children `ValueError` message shared by both strategies. -/
def childlessErrMsg (r : VideoAnalysisResult) : PStr :=
  str "動画の分析結果にセグメントが含まれていません。\nタイトル: " ++ r.video_title ++
    str "\n概要: " ++ r.overview ++
    str "\n動画が短すぎるか、分析に失敗した可能性があります。"

/-- `index_video` (Strategy A): the structured-generation backend is an
external collaborator, so its parsed `VideoAnalysisResult` is the
parameter here; the function's own responsibility is the post-hoc
validation that at least one child exists. -/
def index_video (parsed : VideoAnalysisResult) : Except PStr VideoAnalysisResult :=
  if parsed.children.isEmpty then .error (childlessErrMsg parsed) else .ok parsed

/-- `index_video_ollama` (Strategy B) from the per-frame analyses onward:
duration probing, frame extraction and the per-frame model calls are
external collaborators, so the analysis list and the probed duration are
parameters; the structure assembly and the empty-children validation are
modelled. -/
def index_video_ollama (frames_analysis : List (PStr × FrameAnalysis))
    (dur : Nat) : Except PStr VideoAnalysisResult :=
  match build_video_structure frames_analysis dur with
  | .error e => .error e
  | .ok r => if r.children.isEmpty then .error (childlessErrMsg r) else .ok r

-- ----------------------------------------------------------------------
-- Query dispatch (`agent.py`)
-- ----------------------------------------------------------------------

/-- A part of an event's response content. -/
structure EvPart where
  text : Option PStr
deriving DecidableEq

/-- An event's response content. -/
structure EvContent where
  parts : List EvPart
deriving DecidableEq

/-- One event of the runtime's stream: either an inspectable event with a
terminal flag and optional content, or an event whose inspection raises
(the `except` branch of `call_agent_async` swallows such faults). -/
inductive AgentEvent where
  | ev (isFinal : Bool) (content : Option EvContent)
  | faulty
deriving DecidableEq

/-- The fixed fallback answer. -/
def fallbackMsg : PStr := str "応答を生成できませんでした。"

/-- One iteration of the event loop: a terminal event whose content is
present and has a nonempty parts list overwrites the accumulated text with
its first part's text (`None` coerced to the empty string by `or ""`);
every other event, and any event whose inspection faults, leaves the
accumulator unchanged. -/
def processEvent (acc : PStr) : AgentEvent → PStr
  | .faulty => acc
  | .ev fin cont =>
    if fin then
      match cont with
      | some c =>
        match c.parts with
        | [] => acc
        | p :: _ => p.text.getD []
      | none => acc
    else acc

/-- `call_agent_async` from the event stream onward (the query wrapping
and runner invocation are the external runtime): fold the stream, then
return the accumulated text, or the fixed fallback when it is empty. -/
def call_agent_async (events : List AgentEvent) : PStr :=
  let final_text := events.foldl processEvent []
  if final_text = [] then fallbackMsg else final_text

/-- The texts of the terminal events that carry content with a nonempty
parts list, in stream order (helper for describing `call_agent_async`). -/
def terminalTexts (events : List AgentEvent) : List PStr :=
  events.filterMap fun e =>
    match e with
    | .ev true (some c) =>
      match c.parts with
      | [] => none
      | p :: _ => some (p.text.getD [])
    | _ => none

/-- Spec-side reading of claim C9 ("consumes the stream until a terminal
event carrying non-empty response content is observed and returns that
content"): the first terminal event whose first part carries nonempty
text. -/
def specFirstTerminalText (events : List AgentEvent) : Option PStr :=
  (events.filterMap fun e =>
    match e with
    | .ev true (some c) =>
      match c.parts with
      | [] => none
      | p :: _ =>
        match p.text with
        | some t => if t = [] then none else some t
        | none => none
    | _ => none).head?

-- ----------------------------------------------------------------------
-- Concrete sample data used by witnesses and counterexamples
-- ----------------------------------------------------------------------

/-- A concrete chapter whose children are deliberately out of order. -/
def c1SampleChapter : ChapterNode :=
  { title := str "サンプル", summary := str "概要",
    children :=
      [ { title := str "a", description := str "da", time_span := ⟨str "00:10", str "00:20"⟩ },
        { title := str "b", description := str "db", time_span := ⟨str "00:05", str "00:15"⟩ } ] }

/-- The start/end pair of a segment (for readable statements). -/
def spanOf (s : SegmentNode) : PStr × PStr := (s.time_span.start_time, s.time_span.end_time)

/-- The spans grouped under a root child: a chapter lists its children's
spans, a loose segment lists its own. -/
def childSpans : RootChild → List (PStr × PStr)
  | .chapter c => c.children.map spanOf
  | .segment s => [spanOf s]

def c5a0 : FrameAnalysis := { scene_description := some (str "d0"), is_scene_change := some false }
def c5a1 : FrameAnalysis := { scene_description := some (str "d1"), is_scene_change := some true }
def c5a2 : FrameAnalysis := { scene_description := some (str "d2"), is_scene_change := some false }
def c5a3 : FrameAnalysis := { scene_description := some (str "d3"), is_scene_change := some true }

/-- Frames at t = 0, 10, 20, 30 with `is_scene_change` flags
`[false, true, false, true]`, as in the claim's test vector. -/
def c5frames : List (PStr × FrameAnalysis) :=
  [(str "00:00", c5a0), (str "00:10", c5a1), (str "00:20", c5a2), (str "00:30", c5a3)]

def c5seg0 : SegmentNode :=
  { title := str "シーン (00:00)", description := str "d0", time_span := ⟨str "00:00", str "00:10"⟩ }
def c5seg1 : SegmentNode :=
  { title := str "シーン (00:10)", description := str "d1", time_span := ⟨str "00:10", str "00:20"⟩ }
def c5seg2 : SegmentNode :=
  { title := str "シーン (00:20)", description := str "d2", time_span := ⟨str "00:20", str "00:30"⟩ }
def c5seg3 : SegmentNode :=
  { title := str "シーン (00:30)", description := str "d3", time_span := ⟨str "00:30", str "00:40"⟩ }
def c5ch1 : ChapterNode :=
  { title := str "チャプター 1", summary := str "d0...", children := [c5seg0] }
def c5ch2 : ChapterNode :=
  { title := str "チャプター 2", summary := str "d1...", children := [c5seg1, c5seg2] }
def c5ch3 : ChapterNode :=
  { title := str "チャプター 3", summary := str "d3...", children := [c5seg3] }

/-- A degenerate result: no children but a nonempty overview. -/
def c7childless : VideoAnalysisResult :=
  { video_title := str "タイトル", overview := str "非空の概要", children := [] }

def c8cb : AttachVideoToLlmRequestCallback := ⟨str "01:30", str "02:45"⟩

/-- A stream whose first terminal event answers `"A"` and whose second
terminal event carries a part with missing text. -/
def c9Stream : List AgentEvent :=
  [.ev true (some ⟨[⟨some (str "A")⟩]⟩), .ev true (some ⟨[⟨none⟩]⟩)]

-- ----------------------------------------------------------------------
-- Lemmas about the Python string order
-- ----------------------------------------------------------------------

theorem pyLt_irrefl (a : PStr) : pyLt a a = false := by
  induction a with
  | nil => rfl
  | cons x xs ih => simp [pyLt, ih]

theorem pyLt_asymm : ∀ a b : PStr, pyLt a b = true → pyLt b a = false
  | [], [], h => by simp [pyLt] at h
  | [], _ :: _, _ => rfl
  | _ :: _, [], h => by simp [pyLt] at h
  | x :: xs, y :: ys, h => by
    simp only [pyLt] at h ⊢
    by_cases h1 : x.toNat < y.toNat
    · simp [h1]
      omega
    · by_cases h2 : y.toNat < x.toNat
      · simp [h1, h2] at h
      · simp [h1, h2] at h ⊢
        exact pyLt_asymm xs ys h

theorem pyLt_linear : ∀ a b c : PStr, pyLt a c = true →
    pyLt a b = true ∨ pyLt b c = true
  | [], _, [], h => by simp [pyLt] at h
  | [], _ :: _, _ :: _, _ => by left; rfl
  | [], [], _ :: _, h => by right; exact h
  | _ :: _, _, [], h => by simp [pyLt] at h
  | x :: xs, [], z :: zs, h => by right; rfl
  | x :: xs, y :: ys, z :: zs, h => by
    simp only [pyLt] at h ⊢
    by_cases hxz : x.toNat < z.toNat
    · by_cases hxy : x.toNat < y.toNat
      · left; simp [hxy]
      · right
        have hyz : y.toNat < z.toNat := by omega
        simp [hyz]
    · by_cases hzx : z.toNat < x.toNat
      · simp [hxz, hzx] at h
      · simp only [hxz, hzx, if_false, if_neg] at h
        have hxz' : ¬ x.toNat < z.toNat := hxz
        have heq : x.toNat = z.toNat := by omega
        by_cases hxy : x.toNat < y.toNat
        · left; simp [hxy]
        · by_cases hyx : y.toNat < x.toNat
          · right
            have : y.toNat < z.toNat := by omega
            simp [this]
          · have := pyLt_linear xs ys zs h
            rcases this with h' | h'
            · left; simp [hxy, hyx, h']
            · right
              have hyz : ¬ y.toNat < z.toNat := by omega
              have hzy : ¬ z.toNat < y.toNat := by omega
              simp [hyz, hzy, h']

theorem pyLe_refl (a : PStr) : pyLe a a = true := by
  simp [pyLe, pyLt_irrefl]

theorem pyLe_of_lt {a b : PStr} (h : pyLt a b = true) : pyLe a b = true := by
  simp [pyLe, pyLt_asymm a b h]

theorem pyLe_trans {a b c : PStr} (h1 : pyLe a b = true) (h2 : pyLe b c = true) :
    pyLe a c = true := by
  simp only [pyLe, Bool.not_eq_true'] at h1 h2 ⊢
  by_cases h : pyLt c a = true
  · rcases pyLt_linear c b a h with h' | h'
    · rw [h'] at h2; exact absurd h2 (by simp)
    · rw [h'] at h1; exact absurd h1 (by simp)
  · simpa using h

theorem pyMin_le_left (a b : PStr) : pyLe (pyMin a b) a = true := by
  unfold pyMin
  by_cases h : pyLt b a = true
  · simp [h, pyLe_of_lt h]
  · simp [h, pyLe_refl]

theorem pyMin_le_right (a b : PStr) : pyLe (pyMin a b) b = true := by
  unfold pyMin
  by_cases h : pyLt b a = true
  · simp [h, pyLe_refl]
  · simp only [h, if_false, Bool.false_eq_true, if_neg]
    simp only [pyLe, Bool.not_eq_true']
    simpa using h

theorem pyMin_eq_or (a b : PStr) : pyMin a b = a ∨ pyMin a b = b := by
  unfold pyMin
  by_cases h : pyLt b a = true
  · right; simp [h]
  · left; simp [h]

theorem pyMax_ge_left (a b : PStr) : pyLe a (pyMax a b) = true := by
  unfold pyMax
  by_cases h : pyLt a b = true
  · simp [h, pyLe_of_lt h]
  · simp [h, pyLe_refl]

theorem pyMax_ge_right (a b : PStr) : pyLe b (pyMax a b) = true := by
  unfold pyMax
  by_cases h : pyLt a b = true
  · simp [h, pyLe_refl]
  · simp only [h, if_false, Bool.false_eq_true, if_neg]
    simp only [pyLe, Bool.not_eq_true']
    simpa using h

theorem pyMax_eq_or (a b : PStr) : pyMax a b = a ∨ pyMax a b = b := by
  unfold pyMax
  by_cases h : pyLt a b = true
  · right; simp [h]
  · left; simp [h]

/-- `min` over a nonempty collection, as a left fold: the result is a
lower bound of the seed and all elements. -/
theorem foldMin_le : ∀ (l : List PStr) (a : PStr),
    pyLe (l.foldl pyMin a) a = true ∧ ∀ b ∈ l, pyLe (l.foldl pyMin a) b = true := by
  intro l
  induction l with
  | nil => intro a; exact ⟨pyLe_refl a, by simp⟩
  | cons x xs ih =>
    intro a
    have ih' := ih (pyMin a x)
    constructor
    · exact pyLe_trans ih'.1 (pyMin_le_left a x)
    · intro b hb
      rcases List.mem_cons.mp hb with rfl | hb'
      · exact pyLe_trans ih'.1 (pyMin_le_right a b)
      · exact ih'.2 b hb'

/-- The fold result is one of the seed or the elements. -/
theorem foldMin_mem : ∀ (l : List PStr) (a : PStr), l.foldl pyMin a ∈ a :: l := by
  intro l
  induction l with
  | nil => intro a; simp
  | cons x xs ih =>
    intro a
    rw [List.foldl_cons]
    have ih' := ih (pyMin a x)
    rcases List.mem_cons.mp ih' with h | h
    · rcases pyMin_eq_or a x with h' | h' <;> rw [h, h'] <;> simp
    · simp [List.mem_cons, h]

theorem foldMax_ge : ∀ (l : List PStr) (a : PStr),
    pyLe a (l.foldl pyMax a) = true ∧ ∀ b ∈ l, pyLe b (l.foldl pyMax a) = true := by
  intro l
  induction l with
  | nil => intro a; exact ⟨pyLe_refl a, by simp⟩
  | cons x xs ih =>
    intro a
    have ih' := ih (pyMax a x)
    constructor
    · exact pyLe_trans (pyMax_ge_left a x) ih'.1
    · intro b hb
      rcases List.mem_cons.mp hb with rfl | hb'
      · exact pyLe_trans (pyMax_ge_right a b) ih'.1
      · exact ih'.2 b hb'

theorem foldMax_mem : ∀ (l : List PStr) (a : PStr), l.foldl pyMax a ∈ a :: l := by
  intro l
  induction l with
  | nil => intro a; simp
  | cons x xs ih =>
    intro a
    rw [List.foldl_cons]
    have ih' := ih (pyMax a x)
    rcases List.mem_cons.mp ih' with h | h
    · rcases pyMax_eq_or a x with h' | h' <;> rw [h, h'] <;> simp
    · simp [List.mem_cons, h]

/-- Generic form of the derived-span bound: the folded minimum over
`f x0 :: (rest.map f)` is a member of the mapped list and a lower bound of
it. -/
theorem derivedMin_spec {X : Type} (f : X → PStr) (x0 : X) (rest : List X) :
    (rest.map f).foldl pyMin (f x0) ∈ (x0 :: rest).map f ∧
    ∀ t ∈ (x0 :: rest).map f, pyLe ((rest.map f).foldl pyMin (f x0)) t = true := by
  rw [List.map_cons]
  constructor
  · exact foldMin_mem (rest.map f) (f x0)
  · intro t ht
    rcases List.mem_cons.mp ht with rfl | ht'
    · exact (foldMin_le (rest.map f) (f x0)).1
    · exact (foldMin_le (rest.map f) (f x0)).2 t ht'

/-- Generic form of the derived-span bound for the maximum. -/
theorem derivedMax_spec {X : Type} (f : X → PStr) (x0 : X) (rest : List X) :
    (rest.map f).foldl pyMax (f x0) ∈ (x0 :: rest).map f ∧
    ∀ t ∈ (x0 :: rest).map f, pyLe t ((rest.map f).foldl pyMax (f x0)) = true := by
  rw [List.map_cons]
  constructor
  · exact foldMax_mem (rest.map f) (f x0)
  · intro t ht
    rcases List.mem_cons.mp ht with rfl | ht'
    · exact (foldMax_ge (rest.map f) (f x0)).1
    · exact (foldMax_ge (rest.map f) (f x0)).2 t ht'

/-- C1: for every Chapter and every AnalysisResult with at least one
child, the derived `time_span` has start equal to the minimum of the
children's start times (a member that is a lower bound, in the string
order the code uses) and end equal to the maximum of the children's end
times; with zero children the derived span is exactly `00:00`–`00:01`. -/
theorem claim_c1_derived_time_span_minmax :
    (∀ c : ChapterNode,
      (c.children = [] → c.time_span = ⟨str "00:00", str "00:01"⟩) ∧
      (c.children ≠ [] →
        (c.time_span.start_time ∈ c.children.map (fun s => s.time_span.start_time) ∧
         ∀ t ∈ c.children.map (fun s => s.time_span.start_time),
           pyLe c.time_span.start_time t = true) ∧
        (c.time_span.end_time ∈ c.children.map (fun s => s.time_span.end_time) ∧
         ∀ t ∈ c.children.map (fun s => s.time_span.end_time),
           pyLe t c.time_span.end_time = true))) ∧
    (∀ r : VideoAnalysisResult,
      (r.children = [] → r.time_span = ⟨str "00:00", str "00:01"⟩) ∧
      (r.children ≠ [] →
        (r.time_span.start_time ∈ r.children.map (fun ch => ch.time_span.start_time) ∧
         ∀ t ∈ r.children.map (fun ch => ch.time_span.start_time),
           pyLe r.time_span.start_time t = true) ∧
        (r.time_span.end_time ∈ r.children.map (fun ch => ch.time_span.end_time) ∧
         ∀ t ∈ r.children.map (fun ch => ch.time_span.end_time),
           pyLe t r.time_span.end_time = true))) := by
  constructor
  · intro c
    rcases hc : c.children with _ | ⟨s0, rest⟩
    · exact ⟨fun _ => by simp [ChapterNode.time_span, hc], fun h => absurd rfl h⟩
    · refine ⟨fun h => absurd h (List.cons_ne_nil s0 rest), fun _ => ?_⟩
      have hspan : c.time_span =
          ⟨(rest.map (fun s => s.time_span.start_time)).foldl pyMin s0.time_span.start_time,
           (rest.map (fun s => s.time_span.end_time)).foldl pyMax s0.time_span.end_time⟩ := by
        simp [ChapterNode.time_span, hc]
      rw [hspan]
      exact ⟨derivedMin_spec _ s0 rest, derivedMax_spec _ s0 rest⟩
  · intro r
    rcases hc : r.children with _ | ⟨c0, rest⟩
    · exact ⟨fun _ => by simp [VideoAnalysisResult.time_span, hc], fun h => absurd rfl h⟩
    · refine ⟨fun h => absurd h (List.cons_ne_nil c0 rest), fun _ => ?_⟩
      have hspan : r.time_span =
          ⟨(rest.map (fun ch => ch.time_span.start_time)).foldl pyMin c0.time_span.start_time,
           (rest.map (fun ch => ch.time_span.end_time)).foldl pyMax c0.time_span.end_time⟩ := by
        simp [VideoAnalysisResult.time_span, hc]
      rw [hspan]
      exact ⟨derivedMin_spec _ c0 rest, derivedMax_spec _ c0 rest⟩

/-- Witness for C1 at a concrete chapter (and the empty-children sentinel
at a concrete empty chapter). -/
theorem claim_c1_witness :
    (c1SampleChapter.children ≠ [] ∧
      c1SampleChapter.time_span.start_time ∈
        c1SampleChapter.children.map (fun s => s.time_span.start_time) ∧
      ∀ t ∈ c1SampleChapter.children.map (fun s => s.time_span.start_time),
        pyLe c1SampleChapter.time_span.start_time t = true) ∧
    (({ title := str "空", summary := str "s" } : ChapterNode).children = [] ∧
      ({ title := str "空", summary := str "s" } : ChapterNode).time_span =
        ⟨str "00:00", str "00:01"⟩) :=
  ⟨⟨by decide,
    ((claim_c1_derived_time_span_minmax.1 c1SampleChapter).2 (by decide)).1.1,
    ((claim_c1_derived_time_span_minmax.1 c1SampleChapter).2 (by decide)).1.2⟩,
   rfl,
   (claim_c1_derived_time_span_minmax.1 { title := str "空", summary := str "s" }).1 rfl⟩

/-- C2: for every container node the compiled agent's tool list has
exactly one entry per immediate child, in `children` order, each entry the
recursively compiled agent of that child (an `AgentTool` being a stateless
wrapper around it). -/
theorem claim_c2_tools_one_per_child :
    (∀ c : ChapterNode,
      (c.to_agent).tools.length = c.children.length ∧
      ∀ i : Nat, (c.to_agent).tools[i]? = (c.children[i]?).map SegmentNode.to_agent) ∧
    (∀ r : VideoAnalysisResult,
      (r.to_agent).tools.length = r.children.length ∧
      ∀ i : Nat, (r.to_agent).tools[i]? = (r.children[i]?).map RootChild.to_agent) := by
  constructor
  · intro c
    have h : (c.to_agent).tools = c.children.map SegmentNode.to_agent := rfl
    rw [h]
    exact ⟨List.length_map _ _, fun i => List.getElem?_map _ _ _⟩
  · intro r
    have h : (r.to_agent).tools = r.children.map RootChild.to_agent := rfl
    rw [h]
    exact ⟨List.length_map _ _, fun i => List.getElem?_map _ _ _⟩

/-- C3: `TimeSpan` construction succeeds exactly when both inputs pass the
`MM:SS` format validator (the code's `re.match` check) and the start is
strictly before the end in the comparison the model validator performs. -/
theorem claim_c3_timespan_construction_iff :
    ∀ st en : PStr,
      TimeSpan.make st en = .ok ⟨st, en⟩ ↔
      (matchesMMSS st = true ∧ matchesMMSS en = true ∧ pyLt st en = true) := by
  intro st en
  unfold TimeSpan.make
  split_ifs with h1 h2 h3
  · simp [h1]
  · simp [h2]
  · constructor
    · intro h; cases h
    · intro ⟨_, _, hlt⟩
      rw [hlt] at h3
      cases h3
  · constructor
    · intro _
      refine ⟨?_, ?_, ?_⟩
      · cases h : matchesMMSS st
        · exact absurd h h1
        · rfl
      · cases h : matchesMMSS en
        · exact absurd h h2
        · rfl
      · cases h : pyLt st en
        · exact absurd h h3
        · rfl
    · intro _; rfl

/-- Witness for C3: a valid pair constructs, and both failure directions
are exercised through the equivalence. -/
theorem claim_c3_witness :
    TimeSpan.make (str "01:00") (str "02:30") = .ok ⟨str "01:00", str "02:30"⟩ ∧
    ¬ TimeSpan.make (str "02:30") (str "02:30") = .ok ⟨str "02:30", str "02:30"⟩ :=
  ⟨(claim_c3_timespan_construction_iff (str "01:00") (str "02:30")).mpr (by decide),
   fun h => by
    have := (claim_c3_timespan_construction_iff (str "02:30") (str "02:30")).mp h
    exact absurd this.2.2 (by decide)⟩

-- ----------------------------------------------------------------------
-- Digits, seconds values, and the order they induce (for C4, C8, C10)
-- ----------------------------------------------------------------------

theorem isDigitChar_bounds {c : Char} (h : isDigitChar c = true) :
    48 ≤ c.toNat ∧ c.toNat ≤ 57 := by
  simpa [isDigitChar] using h

theorem digit_ne_colon {c : Char} (h : isDigitChar c = true) : ¬ c = ':' := by
  intro he
  subst he
  exact absurd h (by decide)

theorem digit_beq_colon {c : Char} (h : isDigitChar c = true) : (c == ':') = false := by
  cases hb : c == ':'
  · rfl
  · exact absurd (eq_of_beq hb) (digit_ne_colon h)

theorem digit_not_space {c : Char} (h : isDigitChar c = true) : isSpaceChar c = false := by
  have hb := isDigitChar_bounds h
  simp only [isSpaceChar]
  simp only [Bool.or_eq_false_iff, decide_eq_false_iff_not]
  omega

/-- Structure of a string passing `chronoMMSS`. -/
theorem chronoMMSS_shape {s : PStr} (h : chronoMMSS s = true) :
    ∃ m1 m2 s1 s2 : Char, s = [m1, m2, ':', s1, s2] ∧
      isDigitChar m1 = true ∧ isDigitChar m2 = true ∧ isDigitChar s1 = true ∧
      isDigitChar s2 = true ∧ s1.toNat ≤ 53 := by
  unfold chronoMMSS at h
  split at h
  next m1 m2 c s1 s2 =>
    simp only [Bool.and_eq_true, beq_iff_eq, decide_eq_true_eq] at h
    exact ⟨m1, m2, s1, s2, by rw [h.1.1.1.2], h.1.1.1.1.1, h.1.1.1.1.2, h.1.1.2,
      h.1.2, h.2⟩
  next => exact absurd h (by simp)

/-- `chronoMMSS` strings pass the model's format validator. -/
theorem chronoMMSS_matches {s : PStr} (h : chronoMMSS s = true) :
    matchesMMSS s = true := by
  obtain ⟨m1, m2, s1, s2, rfl, h1, h2, h3, h4, _⟩ := chronoMMSS_shape h
  simp [matchesMMSS, h1, h2, h3, h4]

/-- Python's `int` on a two-digit string. -/
theorem pyInt_two_digits {x y : Char} (hx : isDigitChar x = true)
    (hy : isDigitChar y = true) :
    pyInt [x, y] = (x.toNat - 48) * 10 + (y.toNat - 48) := by
  simp [pyInt, digitsToNat, List.dropWhile, digit_not_space hx, digit_not_space hy]

/-- `split(":")` on an `MM:SS`-shaped string. -/
theorem splitOnColon_mmss {m1 m2 s1 s2 : Char} (h1 : isDigitChar m1 = true)
    (h2 : isDigitChar m2 = true) (h3 : isDigitChar s1 = true)
    (h4 : isDigitChar s2 = true) :
    splitOnColon [m1, m2, ':', s1, s2] = [[m1, m2], [s1, s2]] := by
  simp [splitOnColon, splitOnColon.go, digit_ne_colon h1, digit_ne_colon h2,
    digit_ne_colon h3, digit_ne_colon h4]

/-- The seconds value of an `MM:SS` string is `minutes * 60 + seconds`. -/
theorem toSecondsPy_mmss {m1 m2 s1 s2 : Char} (h1 : isDigitChar m1 = true)
    (h2 : isDigitChar m2 = true) (h3 : isDigitChar s1 = true)
    (h4 : isDigitChar s2 = true) :
    toSecondsPy [m1, m2, ':', s1, s2] =
      ((m1.toNat - 48) * 10 + (m2.toNat - 48)) * 60 +
        ((s1.toNat - 48) * 10 + (s2.toNat - 48)) := by
  simp [toSecondsPy, splitOnColon_mmss h1 h2 h3 h4, pyInt_two_digits h1 h2,
    pyInt_two_digits h3 h4]

set_option maxHeartbeats 1000000 in
/-- Lexicographic comparison of two `MM:SS` strings with in-range seconds
agrees with comparison of their seconds values. -/
theorem pyLt_mmss_iff_seconds {m1 m2 s1 s2 n1 n2 t1 t2 : Char}
    (hm1 : isDigitChar m1 = true) (hm2 : isDigitChar m2 = true)
    (hs1 : isDigitChar s1 = true) (hs2 : isDigitChar s2 = true)
    (hn1 : isDigitChar n1 = true) (hn2 : isDigitChar n2 = true)
    (ht1 : isDigitChar t1 = true) (ht2 : isDigitChar t2 = true)
    (hb1 : s1.toNat ≤ 53) (hb2 : t1.toNat ≤ 53) :
    pyLt [m1, m2, ':', s1, s2] [n1, n2, ':', t1, t2] = true ↔
      toSecondsPy [m1, m2, ':', s1, s2] < toSecondsPy [n1, n2, ':', t1, t2] := by
  have bm1 := isDigitChar_bounds hm1
  have bm2 := isDigitChar_bounds hm2
  have bs1 := isDigitChar_bounds hs1
  have bs2 := isDigitChar_bounds hs2
  have bn1 := isDigitChar_bounds hn1
  have bn2 := isDigitChar_bounds hn2
  have bt1 := isDigitChar_bounds ht1
  have bt2 := isDigitChar_bounds ht2
  rw [toSecondsPy_mmss hm1 hm2 hs1 hs2, toSecondsPy_mmss hn1 hn2 ht1 ht2]
  simp only [pyLt]
  split_ifs <;>
    simp only [eq_self_iff_true, true_iff, false_iff, Bool.false_eq_true,
      iff_false, iff_true, not_lt, not_le] <;>
    omega

/-- Amended C4: on timestamps in strict `MM:SS` form whose seconds field
is below 60 (`chronoMMSS`), the string order used by validation and
aggregation coincides with the order of the values mapped to
`minutes*60 + seconds`, and a pair whose start maps to a seconds value at
least its end's is rejected at construction.  (The format check itself
also admits seconds fields 60–99, where the two orders disagree; see the
counterexample.) -/
theorem claim_c4_amended_order_matches_seconds :
    ∀ s e : PStr, chronoMMSS s = true → chronoMMSS e = true →
      (pyLt s e = true ↔ toSecondsPy s < toSecondsPy e) ∧
      (toSecondsPy e ≤ toSecondsPy s → ∀ ts : TimeSpan, ¬ TimeSpan.make s e = .ok ts) := by
  intro s e hs he
  obtain ⟨m1, m2, s1, s2, rfl, hm1, hm2, hs1, hs2, hb1⟩ := chronoMMSS_shape hs
  obtain ⟨n1, n2, t1, t2, rfl, hn1, hn2, ht1, ht2, hb2⟩ := chronoMMSS_shape he
  have hiff := pyLt_mmss_iff_seconds hm1 hm2 hs1 hs2 hn1 hn2 ht1 ht2 hb1 hb2
  refine ⟨hiff, fun hle ts hmk => ?_⟩
  have hlt : pyLt [m1, m2, ':', s1, s2] [n1, n2, ':', t1, t2] = false := by
    cases hcase : pyLt [m1, m2, ':', s1, s2] [n1, n2, ':', t1, t2]
    · rfl
    · exact absurd (hiff.mp hcase) (by omega)
  rw [TimeSpan.make, chronoMMSS_matches hs, chronoMMSS_matches he] at hmk
  simp [hlt] at hmk

/-- Counterexample to C4 as stated: `"19:99"` and `"20:00"` are both
accepted by the `MM:SS` format check, and `TimeSpan("19:99", "20:00")`
constructs successfully even though the start maps to
`19*60+99 = 1239` seconds, at least the end's `1200` — the string order
and the seconds order disagree on accepted inputs. -/
theorem claim_c4_counterexample :
    matchesMMSS (str "19:99") = true ∧ matchesMMSS (str "20:00") = true ∧
    TimeSpan.make (str "19:99") (str "20:00") = .ok ⟨str "19:99", str "20:00"⟩ ∧
    toSecondsPy (str "20:00") ≤ toSecondsPy (str "19:99") := by decide

/-- Witness for the amended C4 at concrete timestamps. -/
theorem claim_c4_witness :
    chronoMMSS (str "01:30") = true ∧ chronoMMSS (str "02:00") = true ∧
    (pyLt (str "01:30") (str "02:00") = true ↔
      toSecondsPy (str "01:30") < toSecondsPy (str "02:00")) :=
  ⟨by decide, by decide,
   (claim_c4_amended_order_matches_seconds (str "01:30") (str "02:00")
     (by decide) (by decide)).1⟩

-- ----------------------------------------------------------------------
-- C5/C6: the chapter-splitting loop on the specification's test vector
-- ----------------------------------------------------------------------

/-- Counterexample to C5 as stated: on the claimed input the code produces
three chapters — `[0-10]`, `[10-20, 20-30]`, `[30-end]` — not the claimed
two chapters `[0-10, 10-20]` and `[20-30, 30-end]`: the running chapter is
flushed *before* the scene-change frame's segment is appended, so the
flagged segment opens the next chapter instead of closing the current
one. -/
theorem claim_c5_counterexample :
    (build_video_structure c5frames 40).map (fun r => r.children.length) = .ok 3 ∧
    ¬ (build_video_structure c5frames 40).map (fun r => r.children.map childSpans) =
        .ok [[(str "00:00", str "00:10"), (str "00:10", str "00:20")],
             [(str "00:20", str "00:30"), (str "00:30", str "00:40")]] := by decide

/-- Amended C5: the same input yields exactly three chapters — chapter 1
holds the segment 0–10, chapter 2 the segments 10–20 and 20–30, chapter 3
the segment 30–clip-end. -/
theorem claim_c5_amended_three_chapters :
    (build_video_structure c5frames 40).map (fun r => r.children.map childSpans) =
      .ok [[(str "00:00", str "00:10")],
           [(str "00:10", str "00:20"), (str "00:20", str "00:30")],
           [(str "00:30", str "00:40")]] := by decide

/-- C6: whenever the loop of `build_video_structure` yields segment list
`segs` and chapter list `chs`, the root's children are the chapter list
exactly when at least two chapters were produced, and the flat segment
list (never a singleton chapter list) when zero or one was. -/
theorem claim_c6_collapse_rule :
    ∀ (frames : List (PStr × FrameAnalysis)) (dur : Nat)
      (segs : List SegmentNode) (chs : List ChapterNode),
      frames.isEmpty = false →
      buildLoopAux dur frames [] [] [] = .ok (segs, chs) →
      ∃ r, build_video_structure frames dur = .ok r ∧
        (2 ≤ chs.length → r.children = chs.map RootChild.chapter) ∧
        (chs.length ≤ 1 → r.children = segs.map RootChild.segment) := by
  intro frames dur segs chs hne hloop
  simp only [build_video_structure, hne, Bool.false_eq_true, if_false, hloop]
  refine ⟨_, rfl, fun h2 => ?_, fun h1 => ?_⟩
  · show (if 1 < chs.length then chs.map RootChild.chapter
      else segs.map RootChild.segment) = chs.map RootChild.chapter
    rw [if_pos (by omega)]
  · show (if 1 < chs.length then chs.map RootChild.chapter
      else segs.map RootChild.segment) = segs.map RootChild.segment
    rw [if_neg (by omega)]

/-- Witness for C6 at the concrete C5 input (three chapters, so the root's
children are the chapter list). -/
theorem claim_c6_witness :
    c5frames.isEmpty = false ∧
    buildLoopAux 40 c5frames [] [] [] =
      .ok ([c5seg0, c5seg1, c5seg2, c5seg3], [c5ch1, c5ch2, c5ch3]) ∧
    ∃ r, build_video_structure c5frames 40 = .ok r ∧
      r.children = [c5ch1, c5ch2, c5ch3].map RootChild.chapter := by
  refine ⟨rfl, by decide, ?_⟩
  obtain ⟨r, hr, h2, _⟩ :=
    claim_c6_collapse_rule c5frames 40 [c5seg0, c5seg1, c5seg2, c5seg3]
      [c5ch1, c5ch2, c5ch3] rfl (by decide)
  exact ⟨r, hr, h2 (by decide)⟩

/-- C7: whichever strategy produced it, a tree with zero children makes
the indexing operation fail with the empty-children `ValidationError`
regardless of the other field values, and a successful indexing result
never has zero children. -/
theorem claim_c7_empty_children_error :
    (∀ r : VideoAnalysisResult, r.children = [] →
      index_video r = .error (childlessErrMsg r)) ∧
    (∀ r res : VideoAnalysisResult, index_video r = .ok res → res.children ≠ []) ∧
    (∀ (fa : List (PStr × FrameAnalysis)) (dur : Nat) (r : VideoAnalysisResult),
      build_video_structure fa dur = .ok r → r.children = [] →
      index_video_ollama fa dur = .error (childlessErrMsg r)) ∧
    (∀ (fa : List (PStr × FrameAnalysis)) (dur : Nat) (res : VideoAnalysisResult),
      index_video_ollama fa dur = .ok res → res.children ≠ []) := by
  refine ⟨fun r hr => ?_, fun r res h => ?_, fun fa dur r hb hr => ?_, fun fa dur res h => ?_⟩
  · simp [index_video, hr]
  · unfold index_video at h
    by_cases he : r.children.isEmpty
    · rw [if_pos he] at h
      cases h
    · rw [if_neg he] at h
      cases h
      intro hnil
      exact he (by simp [hnil])
  · simp [index_video_ollama, hb, hr]
  · unfold index_video_ollama at h
    rcases hb : build_video_structure fa dur with e | r
    · rw [hb] at h
      cases h
    · rw [hb] at h
      have h' : (if r.children.isEmpty = true then Except.error (childlessErrMsg r)
          else Except.ok r) = Except.ok res := h
      by_cases he : r.children.isEmpty
      · rw [if_pos he] at h'
        cases h'
      · rw [if_neg he] at h'
        cases h'
        intro hnil
        exact he (by simp [hnil])

/-- Witness for C7: the childless result with nonempty overview still
fails. -/
theorem claim_c7_witness :
    c7childless.children = [] ∧ c7childless.overview ≠ [] ∧
    index_video c7childless = .error (childlessErrMsg c7childless) :=
  ⟨rfl, by decide, claim_c7_empty_children_error.1 c7childless rfl⟩

/-- C8: on every invocation the hook leaves the existing request contents
unmodified and appends exactly one content block carrying the shared video
artifact, annotated with the fixed 1 frame/second rate and offsets that,
for a stored `MM:SS` pair, equal `minutes*60 + seconds`. -/
theorem claim_c8_attach_appends :
    ∀ (cb : AttachVideoToLlmRequestCallback) (art : VideoBytes) (req : LlmRequest),
      (cb.call art req).contents =
        req.contents ++
          [⟨str "user",
            [⟨none,
              some ⟨art, some (str "uploaded_video"), str "video/mp4"⟩,
              some ⟨natToDec (toSecondsPy cb.start_time) ++ ['s'],
                natToDec (toSecondsPy cb.end_time) ++ ['s'], 1⟩⟩]⟩] ∧
      (∀ (t : PStr) (m1 m2 s1 s2 : Char), t = [m1, m2, ':', s1, s2] →
        isDigitChar m1 = true → isDigitChar m2 = true →
        isDigitChar s1 = true → isDigitChar s2 = true →
        toSecondsPy t =
          ((m1.toNat - 48) * 10 + (m2.toNat - 48)) * 60 +
            ((s1.toNat - 48) * 10 + (s2.toNat - 48))) := by
  intro cb art req
  refine ⟨rfl, fun t m1 m2 s1 s2 ht h1 h2 h3 h4 => ?_⟩
  rw [ht]
  exact toSecondsPy_mmss h1 h2 h3 h4

/-- Witness for C8 at a concrete callback and an empty request: the
appended block carries offsets `90s` and `165s` at 1 fps. -/
theorem claim_c8_witness :
    toSecondsPy (str "01:30") =
      (('0'.toNat - 48) * 10 + ('1'.toNat - 48)) * 60 +
        (('3'.toNat - 48) * 10 + ('0'.toNat - 48)) ∧
    (c8cb.call [] ⟨[]⟩).contents =
      [⟨str "user",
        [⟨none,
          some ⟨[], some (str "uploaded_video"), str "video/mp4"⟩,
          some ⟨str "90s", str "165s", 1⟩⟩]⟩] :=
  ⟨(claim_c8_attach_appends c8cb [] ⟨[]⟩).2 (str "01:30") '0' '1' '3' '0'
      (by decide) (by decide) (by decide) (by decide) (by decide),
   ((claim_c8_attach_appends c8cb [] ⟨[]⟩).1).trans (by decide)⟩

-- ----------------------------------------------------------------------
-- C9: dispatch keeps the last terminal text, not the first
-- ----------------------------------------------------------------------

/-- The event fold keeps the text of the last terminal event carrying
content with a nonempty parts list, defaulting to the accumulator. -/
theorem foldl_processEvent (events : List AgentEvent) :
    ∀ acc : PStr, events.foldl processEvent acc = (terminalTexts events).getLastD acc := by
  induction events with
  | nil => intro acc; rfl
  | cons e es ih =>
    intro acc
    rw [List.foldl_cons]
    rcases e with ⟨fin, cont⟩ | _
    case cons.faulty =>
      simp only [terminalTexts, List.filterMap_cons, processEvent]
      exact ih acc
    · cases fin
      · simp only [terminalTexts, List.filterMap_cons]
        exact ih acc
      · rcases cont with _ | ⟨c⟩
        · simp only [terminalTexts, List.filterMap_cons]
          exact ih acc
        · rcases hp : c.parts with _ | ⟨p, ps⟩
          · simp only [terminalTexts, List.filterMap_cons, hp, processEvent]
            exact ih acc
          · simp only [terminalTexts, List.filterMap_cons, hp, processEvent,
              List.getLastD_cons]
            exact ih (p.text.getD [])

/-- Amended C9: dispatch consumes the whole stream; each terminal event
carrying content with a nonempty parts list overwrites the running text
with its first part's text (a missing text coerced to empty), so the
returned value is the last such text when it is nonempty and the fixed
fallback otherwise — and a faulty event is skipped without affecting the
result. -/
theorem claim_c9_amended_last_terminal :
    ∀ events : List AgentEvent,
      (call_agent_async events =
        if (terminalTexts events).getLastD [] = [] then fallbackMsg
        else (terminalTexts events).getLastD []) ∧
      (∀ pre post : List AgentEvent,
        call_agent_async (pre ++ AgentEvent.faulty :: post) =
          call_agent_async (pre ++ post)) := by
  intro events
  constructor
  · show (let ft := events.foldl processEvent []; if ft = [] then fallbackMsg else ft) = _
    rw [foldl_processEvent events []]
  · intro pre post
    unfold call_agent_async
    rw [List.foldl_append, List.foldl_append, List.foldl_cons]
    rfl

/-- Counterexample to C9 as stated: the stream contains a terminal event
carrying the non-empty response `"A"`, yet dispatch returns the fixed
fallback string, because a later terminal event with an empty text
overwrites the accumulated answer — dispatch does not stop at (or return)
the first non-empty terminal response. -/
theorem claim_c9_counterexample :
    specFirstTerminalText c9Stream = some (str "A") ∧
    call_agent_async c9Stream = fallbackMsg ∧
    fallbackMsg ≠ str "A" := by decide

-- ----------------------------------------------------------------------
-- C10: durations of 100 minutes or more break the MM:SS format
-- ----------------------------------------------------------------------

theorem digitChar_digit : ∀ k : Nat, isDigitChar (digitChar k) = true := by
  intro k
  match k with
  | 0 | 1 | 2 | 3 | 4 | 5 | 6 | 7 | 8 => decide
  | n + 9 =>
    show isDigitChar '9' = true
    decide

theorem ndr_digits : ∀ (f n : Nat) (c : Char), c ∈ natDigitsRev f n →
    isDigitChar c = true := by
  intro f
  induction f with
  | zero => intro n c hc; simp [natDigitsRev] at hc
  | succ f ih =>
    intro n c hc
    rw [natDigitsRev] at hc
    by_cases h : n < 10
    · rw [if_pos h] at hc
      rcases List.mem_singleton.mp hc with rfl
      exact digitChar_digit n
    · rw [if_neg h] at hc
      rcases List.mem_cons.mp hc with rfl | hc'
      · exact digitChar_digit (n % 10)
      · exact ih (n / 10) c hc'

theorem ndr_len1 (f n : Nat) (h : 0 < f) : 1 ≤ (natDigitsRev f n).length := by
  rcases f with _ | f
  · omega
  · rw [natDigitsRev]
    by_cases h10 : n < 10
    · rw [if_pos h10]; simp
    · rw [if_neg h10]; simp

theorem ndr_len2 : ∀ f n : Nat, 10 ≤ n → n < f → 2 ≤ (natDigitsRev f n).length := by
  intro f
  rcases f with _ | f
  · intro n _ h; omega
  · intro n h10 hf
    rw [natDigitsRev, if_neg (by omega)]
    have h1 : 1 ≤ (natDigitsRev f (n / 10)).length := ndr_len1 f (n / 10) (by omega)
    simp
    omega

theorem ndr_len3 : ∀ f n : Nat, 100 ≤ n → n < f → 3 ≤ (natDigitsRev f n).length := by
  intro f
  rcases f with _ | f
  · intro n _ h; omega
  · intro n h100 hf
    rw [natDigitsRev, if_neg (by omega)]
    have h1 : 10 ≤ n / 10 := by omega
    have h2 : n / 10 < f := by
      have := Nat.div_lt_self (by omega : 0 < n) (by omega : 1 < 10)
      omega
    have := ndr_len2 f (n / 10) h1 h2
    simp
    omega

theorem natToDec_digits (n : Nat) : ∀ c ∈ natToDec n, isDigitChar c = true := by
  intro c hc
  rw [natToDec, List.mem_reverse] at hc
  exact ndr_digits (n + 1) n c hc

theorem natToDec_len3 {n : Nat} (h : 100 ≤ n) : 3 ≤ (natToDec n).length := by
  rw [natToDec, List.length_reverse]
  exact ndr_len3 (n + 1) n h (by omega)

theorem natPad2_len2 (m : Nat) : 2 ≤ (natPad2 m).length := by
  rw [natPad2]
  by_cases h : m < 10
  · rw [if_pos h]
    have := ndr_len1 (m + 1) m (by omega)
    simp only [natToDec, List.length_cons, List.length_reverse]
    omega
  · rw [if_neg h]
    rw [natToDec, List.length_reverse]
    exact ndr_len2 (m + 1) m (by omega) (by omega)

theorem fmtDur_len6 {dur : Nat} (h : 6000 ≤ dur) : 6 ≤ (fmtDur dur).length := by
  have hmins : natPad2 (dur / 60) = natToDec (dur / 60) := by
    rw [natPad2, if_neg (by omega)]
  have h3 : 3 ≤ (natToDec (dur / 60)).length := natToDec_len3 (by omega)
  have h2 : 2 ≤ (natPad2 (dur % 60)).length := natPad2_len2 (dur % 60)
  rw [fmtDur, hmins]
  simp
  omega

/-- The duration-derived end timestamp of a 100-minute-or-longer video
fails the `MM:SS` format check: its minutes field has at least three
digits, so the character at index 2 is a digit, not the required colon. -/
theorem fmtDur_not_mmss {dur : Nat} (h : 6000 ≤ dur) :
    matchesMMSS (fmtDur dur) = false := by
  have hmins : natPad2 (dur / 60) = natToDec (dur / 60) := by
    rw [natPad2, if_neg (by omega)]
  have hlen : 3 ≤ (natToDec (dur / 60)).length := natToDec_len3 (by omega)
  have hdig := natToDec_digits (dur / 60)
  have hpadlen : 2 ≤ (natPad2 (dur % 60)).length := natPad2_len2 (dur % 60)
  unfold fmtDur
  rw [hmins]
  rcases hL : natToDec (dur / 60) with _ | ⟨d1, _ | ⟨d2, _ | ⟨d3, rest⟩⟩⟩
  · rw [hL] at hlen; simp at hlen
  · rw [hL] at hlen; simp at hlen
  · rw [hL] at hlen; simp at hlen
  · have hd3 : isDigitChar d3 = true := hdig d3 (by rw [hL]; simp)
    simp only [List.cons_append]
    rcases hT : rest ++ ':' :: natPad2 (dur % 60) with _ | ⟨x, _ | ⟨y, tail2⟩⟩
    · have hTl := congrArg List.length hT
      simp only [List.length_append, List.length_cons, List.length_nil] at hTl
      omega
    · have hTl := congrArg List.length hT
      simp only [List.length_append, List.length_cons, List.length_nil] at hTl
      omega
    · simp [matchesMMSS, digit_beq_colon hd3]

/-- Structure of a string passing `isMMSS5`. -/
theorem isMMSS5_shape {s : PStr} (h : isMMSS5 s = true) :
    ∃ m1 m2 s1 s2 : Char, s = [m1, m2, ':', s1, s2] ∧
      isDigitChar m1 = true ∧ isDigitChar m2 = true ∧ isDigitChar s1 = true ∧
      isDigitChar s2 = true := by
  unfold isMMSS5 at h
  split at h
  next m1 m2 c s1 s2 =>
    simp only [Bool.and_eq_true, beq_iff_eq] at h
    exact ⟨m1, m2, s1, s2, by rw [h.1.1.2], h.1.1.1.1, h.1.1.1.2, h.1.2, h.2⟩
  next => exact absurd h (by simp)

theorem isMMSS5_matches {s : PStr} (h : isMMSS5 s = true) : matchesMMSS s = true := by
  obtain ⟨m1, m2, s1, s2, rfl, h1, h2, h3, h4⟩ := isMMSS5_shape h
  simp [matchesMMSS, h1, h2, h3, h4]

theorem isMMSS5_len {s : PStr} (h : isMMSS5 s = true) : s.length = 5 := by
  obtain ⟨m1, m2, s1, s2, rfl, _, _, _, _⟩ := isMMSS5_shape h
  rfl

/-- One-step equation of the loop on two or more remaining frames. -/
theorem buildLoopAux_cons_cons (dur : Nat) (t : PStr) (a : FrameAnalysis)
    (t2 : PStr) (a2 : FrameAnalysis) (rest2 : List (PStr × FrameAnalysis))
    (segs cur : List SegmentNode) (chs : List ChapterNode) :
    buildLoopAux dur ((t, a) :: (t2, a2) :: rest2) segs cur chs =
      if t = t2 then buildLoopAux dur ((t2, a2) :: rest2) segs cur chs
      else
        match TimeSpan.make t t2 with
        | .error e => .error e
        | .ok ts =>
          if a.sceneChangeD && !cur.isEmpty then
            buildLoopAux dur ((t2, a2) :: rest2)
              (segs ++ [{ title := pyTitle a.sceneTypeD ++ str " (" ++ t ++ str ")",
                          description := a.descD, time_span := ts }])
              [{ title := pyTitle a.sceneTypeD ++ str " (" ++ t ++ str ")",
                 description := a.descD, time_span := ts }]
              (chs ++ [mkChapter (chs.length + 1) cur])
          else
            buildLoopAux dur ((t2, a2) :: rest2)
              (segs ++ [{ title := pyTitle a.sceneTypeD ++ str " (" ++ t ++ str ")",
                          description := a.descD, time_span := ts }])
              (cur ++ [{ title := pyTitle a.sceneTypeD ++ str " (" ++ t ++ str ")",
                         description := a.descD, time_span := ts }])
              chs := rfl

/-- The loop propagates a failing `TimeSpan` construction. -/
theorem buildLoopAux_step_error {dur : Nat} {t : PStr} {a : FrameAnalysis}
    {t2 : PStr} {a2 : FrameAnalysis} {rest2 : List (PStr × FrameAnalysis)}
    {segs cur : List SegmentNode} {chs : List ChapterNode} {e : PStr}
    (he : ¬ t = t2) (hmk : TimeSpan.make t t2 = .error e) :
    buildLoopAux dur ((t, a) :: (t2, a2) :: rest2) segs cur chs = .error e := by
  rw [buildLoopAux_cons_cons, if_neg he, hmk]

/-- The loop step on a successful `TimeSpan` construction. -/
theorem buildLoopAux_step_ok {dur : Nat} {t : PStr} {a : FrameAnalysis}
    {t2 : PStr} {a2 : FrameAnalysis} {rest2 : List (PStr × FrameAnalysis)}
    {segs cur : List SegmentNode} {chs : List ChapterNode} {ts : TimeSpan}
    (he : ¬ t = t2) (hmk : TimeSpan.make t t2 = .ok ts) :
    buildLoopAux dur ((t, a) :: (t2, a2) :: rest2) segs cur chs =
      if a.sceneChangeD && !cur.isEmpty then
        buildLoopAux dur ((t2, a2) :: rest2)
          (segs ++ [{ title := pyTitle a.sceneTypeD ++ str " (" ++ t ++ str ")",
                      description := a.descD, time_span := ts }])
          [{ title := pyTitle a.sceneTypeD ++ str " (" ++ t ++ str ")",
             description := a.descD, time_span := ts }]
          (chs ++ [mkChapter (chs.length + 1) cur])
      else
        buildLoopAux dur ((t2, a2) :: rest2)
          (segs ++ [{ title := pyTitle a.sceneTypeD ++ str " (" ++ t ++ str ")",
                      description := a.descD, time_span := ts }])
          (cur ++ [{ title := pyTitle a.sceneTypeD ++ str " (" ++ t ++ str ")",
                     description := a.descD, time_span := ts }])
          chs := by
  rw [buildLoopAux_cons_cons, if_neg he, hmk]

/-- The loop of `build_video_structure` necessarily hits a failing
`TimeSpan` construction when all frame timestamps are five-character
`MM:SS` strings and the clip lasts 6000 seconds or more: the final
segment's end timestamp fails the format check (and any earlier failure is
also a validation error). -/
theorem buildLoopAux_error_of_long {dur : Nat} (hdur : 6000 ≤ dur) :
    ∀ frames : List (PStr × FrameAnalysis), frames ≠ [] →
      (∀ p ∈ frames, isMMSS5 p.1 = true) →
      ∀ segs cur chs, ∃ msg, buildLoopAux dur frames segs cur chs = .error msg := by
  intro frames
  induction frames with
  | nil => intro h; exact absurd rfl h
  | cons p rest ih =>
    rcases p with ⟨t, a⟩
    intro _ hall segs cur chs
    have ht5 : isMMSS5 t = true := hall (t, a) (by simp)
    rcases rest with _ | ⟨⟨t2, a2⟩, rest2⟩
    · have hne : ¬ t = fmtDur dur := by
        intro he
        have h1 : t.length = 5 := isMMSS5_len ht5
        have h2 : 6 ≤ (fmtDur dur).length := fmtDur_len6 hdur
        rw [he] at h1
        omega
      have hmk : TimeSpan.make t (fmtDur dur) =
          .error (str "無効な時間形式: " ++ fmtDur dur ++ str "。MM:SS形式である必要があります。") := by
        unfold TimeSpan.make
        rw [if_neg (by simp [isMMSS5_matches ht5]), if_pos (fmtDur_not_mmss hdur)]
      exact ⟨_, by simp only [buildLoopAux]; rw [if_neg hne, hmk]⟩
    · have hall2 : ∀ p ∈ (t2, a2) :: rest2, isMMSS5 p.1 = true := by
        intro p hp
        exact hall p (List.mem_cons_of_mem _ hp)
      have hne2 : ((t2, a2) :: rest2 : List (PStr × FrameAnalysis)) ≠ [] := by simp
      by_cases he : t = t2
      · obtain ⟨msg, hmsg⟩ := ih hne2 hall2 segs cur chs
        exact ⟨msg, by simp only [buildLoopAux]; rw [if_pos he]; exact hmsg⟩
      · cases hmk : TimeSpan.make t t2 with
        | error e =>
          exact ⟨e, buildLoopAux_step_error he hmk⟩
        | ok ts =>
          have h1 := ih hne2 hall2
          rw [buildLoopAux_step_ok he hmk]
          by_cases hsc : (a.sceneChangeD && !cur.isEmpty) = true
          · rw [if_pos hsc]
            exact h1 _ _ _
          · rw [if_neg hsc]
            exact h1 _ _ _

/-- Amended C10: for every non-empty frame-analysis list whose timestamps
are all in strict five-character `MM:SS` form (as the frame extractor
emits below 100 minutes) and every whole-second duration of 6000 seconds
or more, building the structure fails with a validation error, because
the last segment's end timestamp is formatted with a three-or-more-digit
minutes field that fails the two-digit `MM:SS` pattern. -/
theorem claim_c10_amended_overflow_error :
    ∀ (frames : List (PStr × FrameAnalysis)) (dur : Nat),
      frames ≠ [] → (∀ p ∈ frames, isMMSS5 p.1 = true) → 6000 ≤ dur →
      ∃ msg, build_video_structure frames dur = .error msg := by
  intro frames dur hne hall hdur
  obtain ⟨msg, hmsg⟩ := buildLoopAux_error_of_long hdur frames hne hall [] [] []
  refine ⟨msg, ?_⟩
  unfold build_video_structure
  rw [if_neg (by simp [List.isEmpty_iff, hne]), hmsg]

/-- Counterexample to C10 as stated (quantified over *every* non-empty
frame-analysis list): a single frame whose timestamp equals the formatted
duration is skipped as zero-length, so no `TimeSpan` is ever constructed
and building the structure returns a childless result instead of raising
a validation error. -/
theorem claim_c10_counterexample :
    build_video_structure [(str "100:00", ({} : FrameAnalysis))] 6000 =
      .ok { video_title := str "動画分析結果", overview := str "...", children := [] } := by
  decide

/-- Witness for the amended C10 at a concrete one-frame list and a
6000-second duration. -/
theorem claim_c10_witness :
    ([(str "00:00", ({} : FrameAnalysis))] : List (PStr × FrameAnalysis)) ≠ [] ∧
    (∀ p ∈ ([(str "00:00", ({} : FrameAnalysis))] : List (PStr × FrameAnalysis)),
      isMMSS5 p.1 = true) ∧
    ∃ msg, build_video_structure [(str "00:00", ({} : FrameAnalysis))] 6000 = .error msg :=
  ⟨by decide, by decide,
   claim_c10_amended_overflow_error [(str "00:00", ({} : FrameAnalysis))] 6000
     (by decide) (by decide) (by decide)⟩
